import Mathlib

/-!
Verification of the geekfit progress/achievement engine.

The definitions below are shallow embeddings of the Rust sources
`src-tauri/src/lib.rs` (GUI backend) and `src-tauri/src/bin/cli.rs` (CLI).
Modelling conventions:

* SQLite rows become Lean structures; tables become lists; queries become
  list operations.  A `WHERE id = ?` single-row query returns the first
  matching element; an `UPDATE ... WHERE` maps over all matching rows.
* Calendar dates (stored by the code as canonical `%Y-%m-%d` strings and
  compared only for equality) are modelled as `Int` epoch days, so that
  "yesterday" is `today - 1`.  The clock values read during one call
  (`chrono::Local::now()` is read more than once in the source, always
  within the same transaction) are modelled as a single `today` parameter,
  together with a `ts` parameter for the timestamp string written into
  `unlocked_at`.
* `f64` arithmetic in the XP curve is idealized as exact real arithmetic
  (`Real.rpow` for `powf`, `Int.floor` for `floor`).
* Each SQL statement executed by the code auto-commits individually (the
  source opens no transaction).  Durable-write failure is modelled by the
  `failAt` parameter: the n-th write statement executed by a call fails
  (has no effect, and the error propagates, as the source's `?` does)
  when `failAt = some n`.  `failAt = none` is the fault-free run.
-/

namespace Geekfit

open Real

/-- One summand of the XP curve loop in `xp_for_level`
(`(i as f64) + 300.0 * 2.0_f64.powf((i as f64) / 7.0)`),
with `f64` idealized as ℝ. -/
noncomputable def xpTerm (i : Nat) : ℝ :=
  (i : ℝ) + 300 * (2 : ℝ) ^ ((i : ℝ) / 7)

/-- The accumulator `total` of `xp_for_level` after the loop `for i in 1..level`. -/
noncomputable def xpSum (level : Int) : ℝ :=
  ∑ i ∈ Finset.range (level - 1).toNat, xpTerm (i + 1)

/-- Embedding of `xp_for_level` (lib.rs lines 73-82, identical in cli.rs):
returns 0 for `level <= 1`, otherwise `(total / 4.0).floor()`. -/
noncomputable def xp_for_level (level : Int) : Int :=
  if level ≤ 1 then 0 else ⌊xpSum level / 4⌋

/-- Embedding of the `while xp_for_level(level + 1) <= xp && level < 99` loop of
`level_from_xp`.  The fuel argument bounds the iteration count; the guard
`level < 99` makes 98 iterations from the entry point an exact bound. -/
noncomputable def levelFromXpGo (xp : Int) : Nat → Int → Int
  | 0, level => level
  | fuel + 1, level =>
    if xp_for_level (level + 1) ≤ xp ∧ level < 99 then
      levelFromXpGo xp fuel (level + 1)
    else level

/-- Embedding of `level_from_xp` (lib.rs lines 84-90, identical in cli.rs). -/
noncomputable def level_from_xp (xp : Int) : Int :=
  levelFromXpGo xp 98 1

theorem xpTerm_ge (i : Nat) (hi : 1 ≤ i) : (301 : ℝ) ≤ xpTerm i := by
  unfold xpTerm
  have h1 : (1 : ℝ) ≤ (i : ℝ) := by exact_mod_cast hi
  have h2 : (1 : ℝ) ≤ (2 : ℝ) ^ ((i : ℝ) / 7) := by
    have h0 : (2 : ℝ) ^ (0 : ℝ) ≤ (2 : ℝ) ^ ((i : ℝ) / 7) := by
      apply Real.rpow_le_rpow_of_exponent_le (by norm_num)
      positivity
    simpa using h0
  nlinarith

theorem xpSum_succ (level : Int) (h : 1 ≤ level) :
    xpSum (level + 1) = xpSum level + xpTerm ((level - 1).toNat + 1) := by
  unfold xpSum
  have h1 : (level + 1 - 1).toNat = (level - 1).toNat + 1 := by omega
  rw [h1, Finset.sum_range_succ]

theorem xpSum_nonneg (level : Int) : 0 ≤ xpSum level := by
  unfold xpSum
  apply Finset.sum_nonneg
  intro i _
  have := xpTerm_ge (i + 1) (by omega)
  linarith

theorem xp_for_level_one_le (level : Int) (h : level ≤ 1) : xp_for_level level = 0 := by
  unfold xp_for_level
  simp [h]

/-- The curve grows by at least 75 XP per level: consecutive values of
`xp_for_level` differ by at least `⌊301/4⌋`. -/
theorem xp_for_level_succ_ge (level : Int) (h : 1 ≤ level) :
    xp_for_level level + 75 ≤ xp_for_level (level + 1) := by
  have hterm : (301 : ℝ) ≤ xpTerm ((level - 1).toNat + 1) := xpTerm_ge _ (by omega)
  have hsucc := xpSum_succ level h
  rcases eq_or_lt_of_le h with heq | hlt
  · -- level = 1 : xp_for_level 1 = 0 and xp_for_level 2 = ⌊xpSum 2 / 4⌋ ≥ 75
    subst heq
    have h1 : xp_for_level 1 = 0 := xp_for_level_one_le 1 le_rfl
    have h2 : xp_for_level (1 + 1) = ⌊xpSum (1 + 1) / 4⌋ := by
      unfold xp_for_level
      norm_num
    have hx1 : xpSum 1 = 0 := by
      unfold xpSum
      norm_num
    have hge : (75 : ℝ) ≤ xpSum (1 + 1) / 4 := by
      rw [le_div_iff₀ (by norm_num : (0 : ℝ) < 4), hsucc, hx1]
      linarith
    have : (75 : Int) ≤ ⌊xpSum (1 + 1) / 4⌋ := by
      rw [Int.le_floor]
      exact_mod_cast hge
    omega
  · -- level ≥ 2 : both sides take the floor branch
    have hl2 : ¬ level ≤ 1 := by omega
    have hl2' : ¬ level + 1 ≤ 1 := by omega
    have h1 : xp_for_level level = ⌊xpSum level / 4⌋ := by
      unfold xp_for_level
      simp [hl2]
    have h2 : xp_for_level (level + 1) = ⌊xpSum (level + 1) / 4⌋ := by
      unfold xp_for_level
      simp [hl2']
    have hmono : xpSum level / 4 + 75 ≤ xpSum (level + 1) / 4 := by
      rw [hsucc, add_div]
      have ht : (75 : ℝ) ≤ xpTerm ((level - 1).toNat + 1) / 4 := by
        rw [le_div_iff₀ (by norm_num : (0 : ℝ) < 4)]
        linarith
      linarith
    have : ⌊xpSum level / 4⌋ + 75 ≤ ⌊xpSum (level + 1) / 4⌋ := by
      have hfl : ⌊xpSum level / 4 + (75 : Int)⌋ ≤ ⌊xpSum (level + 1) / 4⌋ := by
        apply Int.floor_mono
        push_cast
        linarith
      rwa [Int.floor_add_int] at hfl
    omega

/-- Strict monotonicity of the curve on levels ≥ 1. -/
theorem xp_for_level_lt (a b : Int) (ha : 1 ≤ a) (hab : a < b) :
    xp_for_level a < xp_for_level b := by
  have key : ∀ b : Int, a + 1 ≤ b → xp_for_level a < xp_for_level b := by
    refine Int.le_induction ?_ ?_
    · have := xp_for_level_succ_ge a ha
      omega
    · intro n hn ih
      have hstep := xp_for_level_succ_ge n (by omega)
      omega
  exact key b (by omega)

theorem xp_for_level_le (a b : Int) (ha : 1 ≤ a) (hab : a ≤ b) :
    xp_for_level a ≤ xp_for_level b := by
  rcases eq_or_lt_of_le hab with heq | hlt
  · rw [heq]
  · exact le_of_lt (xp_for_level_lt a b ha hlt)

theorem xp_for_level_two_ge : 75 ≤ xp_for_level 2 := by
  have := xp_for_level_succ_ge 1 le_rfl
  have h1 : xp_for_level 1 = 0 := xp_for_level_one_le 1 le_rfl
  have h2 : (1 : Int) + 1 = 2 := by norm_num
  rw [h2] at this
  omega

/-- Characterization of the `level_from_xp` loop: starting at `level` with
enough fuel, the loop stops exactly at `L` whenever every guard below `L`
passes and the guard at `L` fails (or `L = 99`). -/
theorem levelFromXpGo_eq (xp L : Int) (fuel : Nat) (level : Int)
    (h1 : 1 ≤ level) (h2 : level ≤ L) (h3 : L ≤ level + fuel) (h4 : L ≤ 99)
    (hstep : ∀ l : Int, level ≤ l → l < L → xp_for_level (l + 1) ≤ xp)
    (hstop : L < 99 → ¬ xp_for_level (L + 1) ≤ xp) :
    levelFromXpGo xp fuel level = L := by
  induction fuel generalizing level with
  | zero =>
    unfold levelFromXpGo
    omega
  | succ n ih =>
    unfold levelFromXpGo
    rcases eq_or_lt_of_le h2 with heq | hlt
    · -- at the target level the guard fails
      subst heq
      rcases lt_or_ge level 99 with h99 | h99
      · have := hstop h99
        simp [this]
      · have : ¬ (level < 99) := by omega
        simp [this]
    · -- below the target level the guard passes
      have hg1 : xp_for_level (level + 1) ≤ xp := hstep level le_rfl hlt
      have hg2 : level < 99 := by omega
      simp only [hg1, hg2, and_self, if_true]
      exact ih (level + 1) (by omega) (by omega) (by omega)
        (fun l hl hlL => hstep l (by omega) hlL)

/-- The loop never leaves the interval `[entry, 99]` upward. -/
theorem levelFromXpGo_le (xp : Int) (fuel : Nat) (level : Int) (h : level ≤ 99) :
    levelFromXpGo xp fuel level ≤ 99 := by
  induction fuel generalizing level with
  | zero =>
    unfold levelFromXpGo
    omega
  | succ n ih =>
    unfold levelFromXpGo
    split
    · next hc => exact ih (level + 1) (by omega)
    · omega

/-- A generic round-trip statement: `level_from_xp` recovers `L` from any `xp`
lying in the half-open interval `[xp_for_level L, xp_for_level (L+1))`
(with the upper constraint dropped at `L = 99`). -/
theorem level_from_xp_of_between (xp L : Int) (h1 : 1 ≤ L) (h4 : L ≤ 99)
    (hlo : xp_for_level L ≤ xp) (hhi : L < 99 → xp < xp_for_level (L + 1)) :
    level_from_xp xp = L := by
  unfold level_from_xp
  apply levelFromXpGo_eq xp L 98 1 le_rfl h1 (by omega) h4
  · intro l hl hlL
    calc xp_for_level (l + 1) ≤ xp_for_level L :=
          xp_for_level_le (l + 1) L (by omega) (by omega)
      _ ≤ xp := hlo
  · intro h99
    have := hhi h99
    omega

theorem level_from_xp_le (xp : Int) : level_from_xp xp ≤ 99 :=
  levelFromXpGo_le xp 98 1 (by norm_num)

/-- Any XP total below the level-2 threshold (in particular any total below
75, since `xp_for_level 2 ≥ 75`) maps to level 1. -/
theorem level_from_xp_eq_one (xp : Int) (h : xp < 75) : level_from_xp xp = 1 := by
  unfold level_from_xp
  apply levelFromXpGo_eq xp 1 98 1 le_rfl le_rfl (by omega) (by norm_num)
  · intro l hl hlL
    omega
  · intro _
    have h2 := xp_for_level_two_ge
    have h3 : (1 : Int) + 1 = 2 := by norm_num
    rw [h3]
    omega

/-- C7: round-trip law of the XP curve.  For every level `1 ≤ L ≤ 99`,
`level_from_xp (xp_for_level L) = L`, and for `1 < L ≤ 99`,
`level_from_xp (xp_for_level L - 1) = L - 1`. -/
theorem curve_round_trip (L : Int) (h1 : 1 ≤ L) (h2 : L ≤ 99) :
    level_from_xp (xp_for_level L) = L ∧
      (1 < L → level_from_xp (xp_for_level L - 1) = L - 1) := by
  constructor
  · apply level_from_xp_of_between _ L h1 h2 le_rfl
    intro h99
    exact xp_for_level_lt L (L + 1) h1 (by omega)
  · intro hL
    apply level_from_xp_of_between _ (L - 1) (by omega) (by omega)
    · have : xp_for_level (L - 1) < xp_for_level L :=
        xp_for_level_lt (L - 1) L (by omega) (by omega)
      omega
    · intro _
      have h3 : L - 1 + 1 = L := by omega
      rw [h3]
      omega

/-- Witness for C7 at L = 3. -/
theorem curve_round_trip_witness :
    level_from_xp (xp_for_level 3) = 3 ∧
      (1 < (3 : Int) → level_from_xp (xp_for_level 3 - 1) = 3 - 1) :=
  curve_round_trip 3 (by norm_num) (by norm_num)

/-- C8: saturation of `level_from_xp`.  Every XP total at or above the
level-99 threshold maps to exactly level 99, and no XP total ever maps
above 99. -/
theorem curve_saturation (x : Int) :
    (xp_for_level 99 ≤ x → level_from_xp x = 99) ∧ level_from_xp x ≤ 99 := by
  constructor
  · intro hx
    exact level_from_xp_of_between x 99 (by norm_num) le_rfl hx (by omega)
  · exact level_from_xp_le x

/-- Witness for C8 at `x = xp_for_level 99 + 1000000`. -/
theorem curve_saturation_witness :
    level_from_xp (xp_for_level 99 + 1000000) = 99 :=
  (curve_saturation (xp_for_level 99 + 1000000)).1 (by omega)

/-! ## Data model

Rows of the SQLite tables created by `init_database`, mirroring the structs
in lib.rs lines 15-69.  `logged_at`/`last_exercise_date` are local calendar
days as `Int` (see the header comment); `created_at`/`unlocked_at` keep the
source's string timestamps. -/

/-- Row of the `exercises` table (struct `Exercise`, lib.rs lines 15-24). -/
structure Exercise where
  id : Int
  name : String
  xp_per_rep : Int
  total_xp : Int
  current_level : Int
  icon : Option String
  created_at : String
  deriving DecidableEq

/-- Row of the `exercise_logs` table (struct `ExerciseLog`, lib.rs lines 26-33). -/
structure ExerciseLog where
  id : Int
  exercise_id : Int
  reps : Int
  xp_earned : Int
  logged_at : Int
  deriving DecidableEq

/-- The singleton `user_stats` row (id = 1). -/
structure StatsRow where
  current_streak : Int
  longest_streak : Int
  last_exercise_date : Option Int
  deriving DecidableEq

/-- Row of the `achievements` table (struct `Achievement`, lib.rs lines 45-53). -/
structure Achievement where
  id : Int
  key : String
  name : String
  description : Option String
  icon : Option String
  unlocked_at : Option String
  deriving DecidableEq

/-- Struct `LogExerciseResult` (lib.rs lines 64-69): the full summary returned
by a successful `log_exercise` call. -/
structure LogExerciseResult where
  xp_earned : Int
  new_exercise_level : Int
  leveled_up : Bool
  deriving DecidableEq

/-- The whole SQLite database.  `nextLogId`/`nextExerciseId` model the
AUTOINCREMENT sequences of the two tables that receive inserts. -/
structure DbState where
  exercises : List Exercise
  logs : List ExerciseLog
  stats : StatsRow
  achievements : List Achievement
  settings : List (String × String)
  nextExerciseId : Int
  nextLogId : Int
  deriving DecidableEq

/-- The `SELECT ... FROM exercises WHERE id = ?` single-row query. -/
def queryExercise (exs : List Exercise) (exercise_id : Int) : Option Exercise :=
  exs.find? (fun e => e.id == exercise_id)

/-- The statement `UPDATE achievements SET unlocked_at = ts WHERE key = k AND
unlocked_at IS NULL` (lib.rs, used throughout `check_achievements`). -/
def unlockAchievement (ts k : String) (achs : List Achievement) : List Achievement :=
  achs.map (fun a =>
    if a.key = k ∧ a.unlocked_at = none then { a with unlocked_at := some ts } else a)

/-- Threaded state of `check_achievements`: pending error, database, and the
index of the next durable write (for fault injection). -/
structure AchStep where
  err : Option String
  db : DbState
  idx : Nat

/-- One conditional achievement unlock in `check_achievements`: when the rule
condition `c` holds, execute the guarded UPDATE (which may be the injected
failing write); otherwise no statement runs.  After an error nothing more
executes (the source returns early via `?`). -/
def condUnlock (failAt : Option Nat) (c : Prop) [Decidable c] (ts k : String)
    (s : AchStep) : AchStep :=
  match s.err with
  | some _ => s
  | none =>
    if c then
      if failAt = some s.idx then
        { s with err := some "achievement write failed", idx := s.idx + 1 }
      else
        { err := none,
          db := { s.db with achievements := unlockAchievement ts k s.db.achievements },
          idx := s.idx + 1 }
    else s

/-- Embedding of `check_achievements` (lib.rs lines 416-520).  Reads
(`COUNT(*)`, `COUNT(DISTINCT exercise_id)`, the Pushups same-day rep sum)
are list aggregations; the nine rules run in source order. -/
def check_achievements (failAt : Option Nat) (idx0 : Nat) (ts : String) (today : Int)
    (exercise_level streak total_level : Int) (db : DbState) :
    Option String × DbState :=
  let log_count : Int := (db.logs.length : Int)
  let s1 := condUnlock failAt (log_count = 1) ts "first_exercise" ⟨none, db, idx0⟩
  let s2 := condUnlock failAt (exercise_level ≥ 10) ts "skill_10" s1
  let s3 := condUnlock failAt (exercise_level ≥ 25) ts "skill_25" s2
  let s4 := condUnlock failAt (exercise_level ≥ 50) ts "skill_50" s3
  let s5 := condUnlock failAt (total_level ≥ 100) ts "total_100" s4
  let s6 := condUnlock failAt (streak ≥ 7) ts "week_streak" s5
  let s7 := condUnlock failAt (streak ≥ 30) ts "month_streak" s6
  let distinct_exercises : Int := ((s7.db.logs.map (fun l => l.exercise_id)).dedup.length : Int)
  let s8 := condUnlock failAt (distinct_exercises ≥ 5) ts "variety" s7
  let pushups_today : Int :=
    ((s8.db.logs.filter (fun l => l.logged_at == today)).map (fun l =>
      ((s8.db.exercises.filter
          (fun e => e.id == l.exercise_id && e.name == "Pushups")).length : Int)
        * l.reps)).sum
  let s9 := condUnlock failAt (pushups_today ≥ 100) ts "hundred_pushups" s8
  (s9.err, s9.db)

/-- The streak transition block shared verbatim by lib.rs lines 372-388 and
cli.rs lines 182-198: the new `current_streak` computed from the stored
`last_exercise_date`, today, and the stored streak.  The source compares
canonical date strings for equality; dates are `Int` days here, with
yesterday = `today - 1`. -/
def streakAfter (last_date : Option Int) (today current_streak : Int) : Int :=
  match last_date with
  | some date =>
    if date = today then current_streak
    else if date = today - 1 then current_streak + 1
    else 1
  | none => 1

/-- The statement `UPDATE exercises SET total_xp = ?, current_level = ?
WHERE id = ?`, applied to one row. -/
def updateExerciseRow (exercise_id new_xp new_level : Int) (e : Exercise) : Exercise :=
  if e.id == exercise_id then { e with total_xp := new_xp, current_level := new_level } else e

/-- Embedding of the Tauri command `log_exercise` (lib.rs lines 319-414).
Durable writes in execution order: 0 = log insert, 1 = exercise update,
2 = user_stats update, 3... = achievement unlocks.  On any failure the
effects of the statements already executed remain (the source opens no
SQL transaction), and the error propagates. -/
noncomputable def log_exercise (failAt : Option Nat) (today : Int) (ts : String)
    (exercise_id : Int) (reps : Int) (db : DbState) :
    Except String LogExerciseResult × DbState :=
  match queryExercise db.exercises exercise_id with
  | none => (Except.error "Query returned no rows", db)
  | some ex =>
    let xp_per_rep := ex.xp_per_rep
    let old_xp := ex.total_xp
    let old_level := ex.current_level
    let xp_earned := xp_per_rep * reps
    let new_xp := old_xp + xp_earned
    let new_level := level_from_xp new_xp
    let leveled_up : Bool := decide (new_level > old_level)
    if failAt = some 0 then (Except.error "insert into exercise_logs failed", db)
    else
      let db1 : DbState :=
        { db with
          logs := db.logs ++ [{ id := db.nextLogId, exercise_id := exercise_id,
                                reps := reps, xp_earned := xp_earned, logged_at := today }],
          nextLogId := db.nextLogId + 1 }
      if failAt = some 1 then (Except.error "update exercises failed", db1)
      else
        let db2 : DbState :=
          { db1 with exercises :=
              db1.exercises.map (updateExerciseRow exercise_id new_xp new_level) }
        let last_date := db2.stats.last_exercise_date
        let current_streak := db2.stats.current_streak
        let longest_streak := db2.stats.longest_streak
        let new_streak := streakAfter last_date today current_streak
        let new_longest := max new_streak longest_streak
        if failAt = some 2 then (Except.error "update user_stats failed", db2)
        else
          let db3 : DbState :=
            { db2 with stats := { current_streak := new_streak,
                                  longest_streak := new_longest,
                                  last_exercise_date := some today } }
          let total_level : Int := db3.exercises.foldl (fun acc e => acc + e.current_level) 0
          let r := check_achievements failAt 3 ts today new_level new_streak total_level db3
          ((match r.1 with
            | some e => Except.error e
            | none => Except.ok { xp_earned := xp_earned, new_exercise_level := new_level,
                                  leveled_up := leveled_up }), r.2)

/-- Embedding of the CLI's `log_exercise` (cli.rs lines 131-208): same
queries and updates as the GUI backend up to and including the user_stats
write, no achievement evaluation, tuple result. -/
noncomputable def cli_log_exercise (failAt : Option Nat) (today : Int)
    (exercise_id : Int) (reps : Int) (db : DbState) :
    Except String (Int × Int × Bool) × DbState :=
  match queryExercise db.exercises exercise_id with
  | none => (Except.error "Query returned no rows", db)
  | some ex =>
    let xp_per_rep := ex.xp_per_rep
    let old_xp := ex.total_xp
    let old_level := ex.current_level
    let xp_earned := xp_per_rep * reps
    let new_xp := old_xp + xp_earned
    let new_level := level_from_xp new_xp
    let leveled_up : Bool := decide (new_level > old_level)
    if failAt = some 0 then (Except.error "insert into exercise_logs failed", db)
    else
      let db1 : DbState :=
        { db with
          logs := db.logs ++ [{ id := db.nextLogId, exercise_id := exercise_id,
                                reps := reps, xp_earned := xp_earned, logged_at := today }],
          nextLogId := db.nextLogId + 1 }
      if failAt = some 1 then (Except.error "update exercises failed", db1)
      else
        let db2 : DbState :=
          { db1 with exercises :=
              db1.exercises.map (updateExerciseRow exercise_id new_xp new_level) }
        let last_date := db2.stats.last_exercise_date
        let current_streak := db2.stats.current_streak
        let longest_streak := db2.stats.longest_streak
        let new_streak := streakAfter last_date today current_streak
        let new_longest := max new_streak longest_streak
        if failAt = some 2 then (Except.error "update user_stats failed", db2)
        else
          let db3 : DbState :=
            { db2 with stats := { current_streak := new_streak,
                                  longest_streak := new_longest,
                                  last_exercise_date := some today } }
          (Except.ok (xp_earned, new_level, leveled_up), db3)

/-! ## Export / import / reset -/

/-- Struct `UserStats` (lib.rs lines 35-43), as serialized in an export. -/
structure UserStats where
  total_xp : Int
  total_level : Int
  current_streak : Int
  longest_streak : Int
  last_exercise_date : Option Int
  exercise_count : Int
  deriving DecidableEq

/-- Struct `Settings` (lib.rs lines 55-62). -/
structure Settings where
  reminder_enabled : Bool
  reminder_interval_minutes : Int
  sound_enabled : Bool
  daily_goal_xp : Int
  theme_mode : Option String
  deriving DecidableEq

/-- Struct `ExportData` (lib.rs lines 647-656): a parsed snapshot payload. -/
structure ExportData where
  version : String
  exported_at : String
  exercises : List Exercise
  exercise_logs : List ExerciseLog
  user_stats : UserStats
  achievements : List Achievement
  settings : Settings
  deriving DecidableEq

/-- The exercise-insert loop of `import_data` (lib.rs lines 796-810).
Each `INSERT INTO exercises (id, name, ...)` fails on a duplicate id
(PRIMARY KEY) or duplicate name (UNIQUE); the declared foreign key from
logs to exercises is NOT enforced (SQLite leaves `foreign_keys` off and the
source never enables it). -/
def importExercises : List Exercise → DbState → Except String Unit × DbState
  | [], db => (Except.ok (), db)
  | e :: rest, db =>
    if db.exercises.any (fun e2 => e2.id == e.id || e2.name == e.name) then
      (Except.error "UNIQUE constraint failed: exercises", db)
    else
      importExercises rest
        { db with exercises := db.exercises ++ [e],
                  nextExerciseId := max db.nextExerciseId (e.id + 1) }

/-- The log-insert loop of `import_data` (lib.rs lines 812-819). -/
def importLogs : List ExerciseLog → DbState → Except String Unit × DbState
  | [], db => (Except.ok (), db)
  | l :: rest, db =>
    if db.logs.any (fun l2 => l2.id == l.id) then
      (Except.error "UNIQUE constraint failed: exercise_logs", db)
    else
      importLogs rest
        { db with logs := db.logs ++ [l],
                  nextLogId := max db.nextLogId (l.id + 1) }

/-- The achievement-restore loop of `import_data` (lib.rs lines 832-841):
for each payload achievement with a set `unlocked_at`, run
`UPDATE achievements SET unlocked_at = ? WHERE key = ?`. -/
def importAchievements (payload : List Achievement) (achs : List Achievement) :
    List Achievement :=
  payload.foldl (fun acc pa =>
    if pa.unlocked_at.isSome then
      acc.map (fun a => if a.key == pa.key then { a with unlocked_at := pa.unlocked_at } else a)
    else acc) achs

/-- `INSERT OR REPLACE INTO settings (key, value) VALUES (?, ?)`. -/
def upsertSetting (k v : String) (settings : List (String × String)) :
    List (String × String) :=
  if settings.any (fun p => p.1 == k) then
    settings.map (fun p => if p.1 == k then (k, v) else p)
  else settings ++ [(k, v)]

/-- Embedding of the Tauri command `import_data` (lib.rs lines 779-873).
`parsed = none` models a payload rejected by the serde shape validation
(which happens before the database is touched); `parsed = some data` is a
shape-valid payload.  Note the order of effects in the source: all live
rows are cleared FIRST, then the payload rows are inserted one statement at
a time, with no validation beyond the per-row UNIQUE constraints. -/
def import_data (parsed : Option ExportData) (db : DbState) :
    Except String Unit × DbState :=
  match parsed with
  | none => (Except.error "Invalid data format", db)
  | some data =>
    let db1 : DbState :=
      { db with logs := [], exercises := [],
                stats := { current_streak := 0, longest_streak := 0,
                           last_exercise_date := none },
                achievements := db.achievements.map (fun a => { a with unlocked_at := none }) }
    match importExercises data.exercises db1 with
    | (Except.error e, db2) => (Except.error e, db2)
    | (Except.ok _, db2) =>
      match importLogs data.exercise_logs db2 with
      | (Except.error e, db3) => (Except.error e, db3)
      | (Except.ok _, db3) =>
        let db4 : DbState :=
          { db3 with stats := { current_streak := data.user_stats.current_streak,
                                longest_streak := data.user_stats.longest_streak,
                                last_exercise_date := data.user_stats.last_exercise_date } }
        let db5 : DbState :=
          { db4 with achievements := importAchievements data.achievements db4.achievements }
        let s1 := upsertSetting "reminder_enabled"
          (toString data.settings.reminder_enabled) db5.settings
        let s2 := upsertSetting "reminder_interval_minutes"
          (toString data.settings.reminder_interval_minutes) s1
        let s3 := upsertSetting "sound_enabled" (toString data.settings.sound_enabled) s2
        let s4 := upsertSetting "daily_goal_xp" (toString data.settings.daily_goal_xp) s3
        let s5 :=
          match data.settings.theme_mode with
          | some tm => upsertSetting "theme_mode" tm s4
          | none => s4
        (Except.ok (), { db5 with settings := s5 })

/-- The default exercise seed list (lib.rs lines 889-923, identical to the
list in `init_database`). -/
def defaultExercises : List (String × Int × String) :=
  [("Pushups", 10, "fitness_center"),
   ("Arm Circles", 3, "self_improvement"),
   ("Sit-ups", 8, "self_improvement"),
   ("Crunches", 6, "self_improvement"),
   ("Plank (10 sec)", 5, "self_improvement"),
   ("Leg Raises", 8, "self_improvement"),
   ("Mountain Climbers", 10, "self_improvement"),
   ("Squats", 8, "fitness_center"),
   ("Lunges", 10, "fitness_center"),
   ("Calf Raises", 4, "fitness_center"),
   ("Wall Sit (10 sec)", 4, "fitness_center"),
   ("Side Leg Raises", 6, "fitness_center"),
   ("Step-ups", 8, "fitness_center"),
   ("Jumping Jacks", 6, "directions_run"),
   ("High Knees", 6, "directions_run"),
   ("Burpees", 15, "directions_run"),
   ("Stair Climbs", 10, "directions_run"),
   ("Marching in Place", 4, "directions_run"),
   ("Neck Stretches", 2, "accessibility"),
   ("Shoulder Shrugs", 3, "accessibility"),
   ("Wrist Circles", 2, "accessibility"),
   ("Toe Touches", 4, "accessibility"),
   ("Hip Circles", 3, "accessibility"),
   ("Torso Twists", 3, "accessibility"),
   ("Ankle Rotations", 2, "accessibility"),
   ("Cat-Cow Stretch", 3, "accessibility"),
   ("Chest Opener", 3, "accessibility"),
   ("Quad Stretch", 3, "accessibility")]

/-- One `INSERT INTO exercises (name, xp_per_rep, icon, total_xp,
current_level) VALUES (?, ?, ?, 0, 1)` of the re-seed loop, with the
AUTOINCREMENT id and the `created_at` column default (modelled ""). -/
def seedStep (d : DbState) (nd : String × Int × String) : DbState :=
  let newEx : Exercise :=
    { id := d.nextExerciseId, name := nd.1, xp_per_rep := nd.2.1,
      total_xp := 0, current_level := 1, icon := some nd.2.2, created_at := "" }
  { d with exercises := d.exercises ++ [newEx],
           nextExerciseId := d.nextExerciseId + 1 }

/-- Embedding of the Tauri command `reset_all_data` (lib.rs lines 875-934):
clear all logs and exercises, zero the streak row, clear every unlock
timestamp, then re-seed the default catalog. -/
def reset_all_data (db : DbState) : DbState :=
  let cleared : DbState :=
    { db with logs := [], exercises := [],
              stats := { current_streak := 0, longest_streak := 0,
                         last_exercise_date := none },
              achievements := db.achievements.map (fun a => { a with unlocked_at := none }) }
  defaultExercises.foldl seedStep cleared

/-- Keys that a transaction newly unlocked: positions whose `unlocked_at`
went from absent to set between two database states. -/
def newlyUnlockedKeys (pre post : DbState) : List String :=
  (pre.achievements.zip post.achievements).filterMap (fun p =>
    if p.1.unlocked_at = none ∧ p.2.unlocked_at.isSome then some p.2.key else none)

/-! ## Structural lemmas about the achievement pass -/

theorem condUnlock_preserve (failAt : Option Nat) (c : Prop) [Decidable c] (ts k : String)
    (s : AchStep) :
    (condUnlock failAt c ts k s).db.exercises = s.db.exercises ∧
    (condUnlock failAt c ts k s).db.logs = s.db.logs ∧
    (condUnlock failAt c ts k s).db.stats = s.db.stats ∧
    (condUnlock failAt c ts k s).db.settings = s.db.settings ∧
    (condUnlock failAt c ts k s).db.nextExerciseId = s.db.nextExerciseId ∧
    (condUnlock failAt c ts k s).db.nextLogId = s.db.nextLogId := by
  obtain ⟨err, db, idx⟩ := s
  cases err with
  | some e => exact ⟨rfl, rfl, rfl, rfl, rfl, rfl⟩
  | none =>
    simp only [condUnlock]
    split
    · split
      · exact ⟨rfl, rfl, rfl, rfl, rfl, rfl⟩
      · exact ⟨rfl, rfl, rfl, rfl, rfl, rfl⟩
    · exact ⟨rfl, rfl, rfl, rfl, rfl, rfl⟩

@[simp] theorem condUnlock_exercises (failAt : Option Nat) (c : Prop) [Decidable c]
    (ts k : String) (s : AchStep) :
    (condUnlock failAt c ts k s).db.exercises = s.db.exercises :=
  (condUnlock_preserve failAt c ts k s).1

@[simp] theorem condUnlock_logs (failAt : Option Nat) (c : Prop) [Decidable c]
    (ts k : String) (s : AchStep) :
    (condUnlock failAt c ts k s).db.logs = s.db.logs :=
  (condUnlock_preserve failAt c ts k s).2.1

@[simp] theorem condUnlock_stats (failAt : Option Nat) (c : Prop) [Decidable c]
    (ts k : String) (s : AchStep) :
    (condUnlock failAt c ts k s).db.stats = s.db.stats :=
  (condUnlock_preserve failAt c ts k s).2.2.1

@[simp] theorem condUnlock_settings (failAt : Option Nat) (c : Prop) [Decidable c]
    (ts k : String) (s : AchStep) :
    (condUnlock failAt c ts k s).db.settings = s.db.settings :=
  (condUnlock_preserve failAt c ts k s).2.2.2.1

@[simp] theorem condUnlock_nextExerciseId (failAt : Option Nat) (c : Prop) [Decidable c]
    (ts k : String) (s : AchStep) :
    (condUnlock failAt c ts k s).db.nextExerciseId = s.db.nextExerciseId :=
  (condUnlock_preserve failAt c ts k s).2.2.2.2.1

@[simp] theorem condUnlock_nextLogId (failAt : Option Nat) (c : Prop) [Decidable c]
    (ts k : String) (s : AchStep) :
    (condUnlock failAt c ts k s).db.nextLogId = s.db.nextLogId :=
  (condUnlock_preserve failAt c ts k s).2.2.2.2.2

@[simp] theorem condUnlock_err_none (c : Prop) [Decidable c] (ts k : String) (s : AchStep) :
    (condUnlock none c ts k s).err = s.err := by
  obtain ⟨err, db, idx⟩ := s
  cases err with
  | some e => rfl
  | none =>
    simp only [condUnlock]
    split
    · simp
    · rfl

@[simp] theorem check_achievements_exercises (failAt : Option Nat) (idx0 : Nat)
    (ts : String) (today l st tl : Int) (db : DbState) :
    (check_achievements failAt idx0 ts today l st tl db).2.exercises = db.exercises := by
  simp [check_achievements]

@[simp] theorem check_achievements_logs (failAt : Option Nat) (idx0 : Nat)
    (ts : String) (today l st tl : Int) (db : DbState) :
    (check_achievements failAt idx0 ts today l st tl db).2.logs = db.logs := by
  simp [check_achievements]

@[simp] theorem check_achievements_stats (failAt : Option Nat) (idx0 : Nat)
    (ts : String) (today l st tl : Int) (db : DbState) :
    (check_achievements failAt idx0 ts today l st tl db).2.stats = db.stats := by
  simp [check_achievements]

@[simp] theorem check_achievements_settings (failAt : Option Nat) (idx0 : Nat)
    (ts : String) (today l st tl : Int) (db : DbState) :
    (check_achievements failAt idx0 ts today l st tl db).2.settings = db.settings := by
  simp [check_achievements]

@[simp] theorem check_achievements_nextExerciseId (failAt : Option Nat) (idx0 : Nat)
    (ts : String) (today l st tl : Int) (db : DbState) :
    (check_achievements failAt idx0 ts today l st tl db).2.nextExerciseId =
      db.nextExerciseId := by
  simp [check_achievements]

@[simp] theorem check_achievements_nextLogId (failAt : Option Nat) (idx0 : Nat)
    (ts : String) (today l st tl : Int) (db : DbState) :
    (check_achievements failAt idx0 ts today l st tl db).2.nextLogId = db.nextLogId := by
  simp [check_achievements]

@[simp] theorem check_achievements_fst (idx0 : Nat) (ts : String)
    (today l st tl : Int) (db : DbState) :
    (check_achievements none idx0 ts today l st tl db).1 = none := by
  simp [check_achievements]

/-- Evolution of a single achievement row under the unlock statements:
either untouched, or set from absent to `some ts`. -/
def achEvolves (ts : String) (b a : Achievement) : Prop :=
  a = b ∨ (b.unlocked_at = none ∧ a = { b with unlocked_at := some ts })

/-- Pointwise evolution of the achievements table. -/
def achListEvolves (ts : String) (pre post : List Achievement) : Prop :=
  post.length = pre.length ∧
    ∀ (i : Nat) (b : Achievement), pre[i]? = some b →
      ∃ a, post[i]? = some a ∧ achEvolves ts b a

theorem achListEvolves_refl (ts : String) (pre : List Achievement) :
    achListEvolves ts pre pre :=
  ⟨rfl, fun _ b h => ⟨b, h, Or.inl rfl⟩⟩

theorem achEvolves_trans (ts : String) (b c a : Achievement)
    (h1 : achEvolves ts b c) (h2 : achEvolves ts c a) : achEvolves ts b a := by
  rcases h1 with rfl | ⟨hb, rfl⟩
  · exact h2
  · rcases h2 with rfl | ⟨hc, rfl⟩
    · exact Or.inr ⟨hb, rfl⟩
    · exact absurd hc (by simp)

theorem achListEvolves_trans (ts : String) (pre mid post : List Achievement)
    (h1 : achListEvolves ts pre mid) (h2 : achListEvolves ts mid post) :
    achListEvolves ts pre post := by
  obtain ⟨hl1, h1⟩ := h1
  obtain ⟨hl2, h2⟩ := h2
  refine ⟨hl2.trans hl1, fun i b hb => ?_⟩
  obtain ⟨c, hc, e1⟩ := h1 i b hb
  obtain ⟨a, ha, e2⟩ := h2 i c hc
  exact ⟨a, ha, achEvolves_trans ts b c a e1 e2⟩

theorem achEvolves_key (ts : String) (b a : Achievement) (h : achEvolves ts b a) :
    a.key = b.key := by
  rcases h with rfl | ⟨_, rfl⟩ <;> rfl

theorem unlockAchievement_evolves (ts k : String) (achs : List Achievement) :
    achListEvolves ts achs (unlockAchievement ts k achs) := by
  constructor
  · simp [unlockAchievement]
  · intro i b hb
    have hmap : (unlockAchievement ts k achs)[i]? =
        some (if b.key = k ∧ b.unlocked_at = none
              then { b with unlocked_at := some ts } else b) := by
      rw [unlockAchievement, List.getElem?_map, hb, Option.map_some']
    by_cases hcond : b.key = k ∧ b.unlocked_at = none
    · rw [if_pos hcond] at hmap
      exact ⟨_, hmap, Or.inr ⟨hcond.2, rfl⟩⟩
    · rw [if_neg hcond] at hmap
      exact ⟨b, hmap, Or.inl rfl⟩

theorem condUnlock_evolves (failAt : Option Nat) (c : Prop) [Decidable c] (ts k : String)
    (s : AchStep) :
    achListEvolves ts s.db.achievements (condUnlock failAt c ts k s).db.achievements := by
  obtain ⟨err, db, idx⟩ := s
  cases err with
  | some e => exact achListEvolves_refl ts _
  | none =>
    simp only [condUnlock]
    split
    · split
      · exact achListEvolves_refl ts _
      · exact unlockAchievement_evolves ts k _
    · exact achListEvolves_refl ts _

theorem check_achievements_evolves (failAt : Option Nat) (idx0 : Nat) (ts : String)
    (today l st tl : Int) (db : DbState) :
    achListEvolves ts db.achievements
      (check_achievements failAt idx0 ts today l st tl db).2.achievements := by
  simp only [check_achievements]
  refine achListEvolves_trans ts _ _ _ ?_ (condUnlock_evolves _ _ _ _ _)
  refine achListEvolves_trans ts _ _ _ ?_ (condUnlock_evolves _ _ _ _ _)
  refine achListEvolves_trans ts _ _ _ ?_ (condUnlock_evolves _ _ _ _ _)
  refine achListEvolves_trans ts _ _ _ ?_ (condUnlock_evolves _ _ _ _ _)
  refine achListEvolves_trans ts _ _ _ ?_ (condUnlock_evolves _ _ _ _ _)
  refine achListEvolves_trans ts _ _ _ ?_ (condUnlock_evolves _ _ _ _ _)
  refine achListEvolves_trans ts _ _ _ ?_ (condUnlock_evolves _ _ _ _ _)
  refine achListEvolves_trans ts _ _ _ ?_ (condUnlock_evolves _ _ _ _ _)
  refine achListEvolves_trans ts _ _ _ ?_ (condUnlock_evolves _ _ _ _ _)
  exact achListEvolves_refl ts _

theorem check_achievements_evolves_from (failAt : Option Nat) (idx0 : Nat) (ts : String)
    (today l st tl : Int) (db : DbState) (pre : List Achievement)
    (hpre : db.achievements = pre) :
    achListEvolves ts pre
      (check_achievements failAt idx0 ts today l st tl db).2.achievements := by
  rw [← hpre]
  exact check_achievements_evolves failAt idx0 ts today l st tl db

theorem log_exercise_evolves (failAt : Option Nat) (today : Int) (ts : String)
    (eid reps : Int) (db : DbState) :
    achListEvolves ts db.achievements
      (log_exercise failAt today ts eid reps db).2.achievements := by
  cases hq : queryExercise db.exercises eid with
  | none =>
    simp only [log_exercise, hq]
    exact achListEvolves_refl ts _
  | some ex =>
    simp only [log_exercise, hq]
    split
    · exact achListEvolves_refl ts _
    · split
      · exact achListEvolves_refl ts _
      · split
        · exact achListEvolves_refl ts _
        · dsimp only
          exact check_achievements_evolves_from failAt 3 ts today _ _ _ _ _ rfl

@[simp] theorem exceptMap_error {ε α β : Type} (f : α → β) (e : ε) :
    (Except.error e : Except ε α).map f = Except.error e := rfl

@[simp] theorem exceptMap_ok {ε α β : Type} (f : α → β) (a : α) :
    (Except.ok a : Except ε α).map f = Except.ok (f a) := rfl

/-! ## Shape of a fault-free `log_exercise` run -/

theorem log_exercise_none_fst (today : Int) (ts : String) (eid reps : Int) (db : DbState)
    (ex : Exercise) (hq : queryExercise db.exercises eid = some ex) :
    (log_exercise none today ts eid reps db).1 =
      Except.ok { xp_earned := ex.xp_per_rep * reps,
                  new_exercise_level := level_from_xp (ex.total_xp + ex.xp_per_rep * reps),
                  leveled_up :=
                    decide (level_from_xp (ex.total_xp + ex.xp_per_rep * reps) >
                      ex.current_level) } := by
  simp [log_exercise, hq]

theorem log_exercise_none_logs (today : Int) (ts : String) (eid reps : Int) (db : DbState)
    (ex : Exercise) (hq : queryExercise db.exercises eid = some ex) :
    (log_exercise none today ts eid reps db).2.logs =
      db.logs ++ [{ id := db.nextLogId, exercise_id := eid, reps := reps,
                    xp_earned := ex.xp_per_rep * reps, logged_at := today }] := by
  simp [log_exercise, hq]

theorem log_exercise_none_exercises (today : Int) (ts : String) (eid reps : Int)
    (db : DbState) (ex : Exercise) (hq : queryExercise db.exercises eid = some ex) :
    (log_exercise none today ts eid reps db).2.exercises =
      db.exercises.map (updateExerciseRow eid (ex.total_xp + ex.xp_per_rep * reps)
        (level_from_xp (ex.total_xp + ex.xp_per_rep * reps))) := by
  simp [log_exercise, hq]

theorem log_exercise_none_stats (today : Int) (ts : String) (eid reps : Int)
    (db : DbState) (ex : Exercise) (hq : queryExercise db.exercises eid = some ex) :
    (log_exercise none today ts eid reps db).2.stats =
      { current_streak := streakAfter db.stats.last_exercise_date today db.stats.current_streak,
        longest_streak :=
          max (streakAfter db.stats.last_exercise_date today db.stats.current_streak)
            db.stats.longest_streak,
        last_exercise_date := some today } := by
  simp [log_exercise, hq]

theorem log_exercise_notfound (failAt : Option Nat) (today : Int) (ts : String)
    (eid reps : Int) (db : DbState) (hq : queryExercise db.exercises eid = none) :
    log_exercise failAt today ts eid reps db = (Except.error "Query returned no rows", db) := by
  simp [log_exercise, hq]

/-- With the fault injected at write 1 (the exercise UPDATE), the already
committed log insert survives while everything later is absent. -/
theorem log_exercise_fail1 (today : Int) (ts : String) (eid reps : Int) (db : DbState)
    (ex : Exercise) (hq : queryExercise db.exercises eid = some ex) :
    log_exercise (some 1) today ts eid reps db =
      (Except.error "update exercises failed",
       { db with
         logs := db.logs ++ [{ id := db.nextLogId, exercise_id := eid, reps := reps,
                               xp_earned := ex.xp_per_rep * reps, logged_at := today }],
         nextLogId := db.nextLogId + 1 }) := by
  simp [log_exercise, hq]

/-- The streak row after any `log_exercise` call (any fault schedule):
either untouched, or exactly the streak transition applied. -/
theorem log_exercise_stats_cases (failAt : Option Nat) (today : Int) (ts : String)
    (eid reps : Int) (db : DbState) :
    (log_exercise failAt today ts eid reps db).2.stats = db.stats ∨
    (log_exercise failAt today ts eid reps db).2.stats =
      { current_streak := streakAfter db.stats.last_exercise_date today db.stats.current_streak,
        longest_streak :=
          max (streakAfter db.stats.last_exercise_date today db.stats.current_streak)
            db.stats.longest_streak,
        last_exercise_date := some today } := by
  cases hq : queryExercise db.exercises eid with
  | none =>
    left
    simp [log_exercise, hq]
  | some ex =>
    simp only [log_exercise, hq]
    split
    · left; rfl
    · split
      · left; rfl
      · split
        · left; rfl
        · right
          simp

/-! ## Concrete test states -/

/-- A one-exercise catalog entry used by concrete runs. -/
def exW : Exercise :=
  { id := 1, name := "Pushups", xp_per_rep := 10, total_xp := 0, current_level := 1,
    icon := some "fitness_center", created_at := "" }

/-- A small database: one exercise, no logs, streak 3 with activity yesterday. -/
def dbW5 : DbState :=
  { exercises := [exW], logs := [],
    stats := { current_streak := 3, longest_streak := 4, last_exercise_date := some 4 },
    achievements := [], settings := [], nextExerciseId := 2, nextLogId := 1 }

/-- A small database with a fresh streak row. -/
def dbW1 : DbState :=
  { exercises := [exW], logs := [],
    stats := { current_streak := 0, longest_streak := 0, last_exercise_date := none },
    achievements := [], settings := [], nextExerciseId := 2, nextLogId := 1 }

/-! ## Claims -/

/-- C10: on every database state and every (exercise id, reps) input, the
CLI's `log_exercise` performs exactly the same exercise-table, log-table and
streak-row updates as the GUI backend's `log_exercise`, returns the same
summary (as a tuple), and never touches the achievements table: no
`unlocked_at` is ever set by a CLI log. -/
theorem cli_refines_gui (today : Int) (ts : String) (eid reps : Int) (db : DbState) :
    (cli_log_exercise none today eid reps db).2.exercises =
        (log_exercise none today ts eid reps db).2.exercises ∧
    (cli_log_exercise none today eid reps db).2.logs =
        (log_exercise none today ts eid reps db).2.logs ∧
    (cli_log_exercise none today eid reps db).2.stats =
        (log_exercise none today ts eid reps db).2.stats ∧
    (cli_log_exercise none today eid reps db).2.nextLogId =
        (log_exercise none today ts eid reps db).2.nextLogId ∧
    (cli_log_exercise none today eid reps db).2.nextExerciseId =
        (log_exercise none today ts eid reps db).2.nextExerciseId ∧
    (cli_log_exercise none today eid reps db).2.settings =
        (log_exercise none today ts eid reps db).2.settings ∧
    (cli_log_exercise none today eid reps db).2.achievements = db.achievements ∧
    (cli_log_exercise none today eid reps db).1 =
      (log_exercise none today ts eid reps db).1.map
        (fun r => (r.xp_earned, r.new_exercise_level, r.leveled_up)) := by
  cases hq : queryExercise db.exercises eid with
  | none => simp [cli_log_exercise, log_exercise, hq]
  | some ex => simp [cli_log_exercise, log_exercise, hq]

/-- C5: the streak transition of a (successful, fault-free) `log_exercise`
call, with today captured once: absent last date gives streak 1, same day
leaves it unchanged, yesterday increments it, any other stored date (gap of
two or more days, or a future date) resets it to 1; afterwards the last
active date is today and the longest streak is the max of its old value and
the new streak. -/
theorem streak_transition_cases (today : Int) (ts : String) (eid reps : Int)
    (db : DbState) (ex : Exercise) (hq : queryExercise db.exercises eid = some ex) :
    (db.stats.last_exercise_date = none →
      (log_exercise none today ts eid reps db).2.stats.current_streak = 1) ∧
    (db.stats.last_exercise_date = some today →
      (log_exercise none today ts eid reps db).2.stats.current_streak =
        db.stats.current_streak) ∧
    (db.stats.last_exercise_date = some (today - 1) →
      (log_exercise none today ts eid reps db).2.stats.current_streak =
        db.stats.current_streak + 1) ∧
    (∀ d : Int, db.stats.last_exercise_date = some d → d ≠ today → d ≠ today - 1 →
      (log_exercise none today ts eid reps db).2.stats.current_streak = 1) ∧
    (log_exercise none today ts eid reps db).2.stats.last_exercise_date = some today ∧
    (log_exercise none today ts eid reps db).2.stats.longest_streak =
      max db.stats.longest_streak
        (log_exercise none today ts eid reps db).2.stats.current_streak := by
  have hs := log_exercise_none_stats today ts eid reps db ex hq
  refine ⟨fun h => ?_, fun h => ?_, fun h => ?_, fun d hd h1 h2 => ?_, ?_, ?_⟩
  · rw [hs]
    simp [streakAfter, h]
  · rw [hs]
    simp [streakAfter, h]
  · rw [hs]
    simp [streakAfter, h]
  · rw [hs]
    simp only [streakAfter, hd]
    rw [if_neg h1, if_neg h2]
  · rw [hs]
  · rw [hs]
    exact max_comm _ _

/-- Witness for C5: with activity yesterday (day 4, today = 5) the streak
increments from 3 to 4. -/
theorem streak_transition_cases_witness :
    queryExercise dbW5.exercises 1 = some exW ∧
    (log_exercise none 5 "ts" 1 2 dbW5).2.stats.current_streak =
      dbW5.stats.current_streak + 1 :=
  ⟨rfl, (streak_transition_cases 5 "ts" 1 2 dbW5 exW rfl).2.2.1 (by norm_num [dbW5])⟩

/-- C9: an achievement whose `unlocked_at` is already set is never changed or
cleared by any later `log_exercise` call (any fault schedule), and is never
reported as newly unlocked again (its key is absent from the set of
unlock transitions of the call). -/
theorem unlock_set_once (failAt : Option Nat) (today : Int) (ts : String)
    (eid reps : Int) (db : DbState) (i : Nat) (a : Achievement) (t : String)
    (hget : db.achievements[i]? = some a) (hset : a.unlocked_at = some t)
    (hkeys : ∀ (j : Nat) (b : Achievement), db.achievements[j]? = some b →
        b.key = a.key → b.unlocked_at ≠ none) :
    (log_exercise failAt today ts eid reps db).2.achievements[i]? = some a ∧
      a.key ∉ newlyUnlockedKeys db (log_exercise failAt today ts eid reps db).2 := by
  obtain ⟨hlen, hev⟩ := log_exercise_evolves failAt today ts eid reps db
  obtain ⟨a2, ha2, hevo⟩ := hev i a hget
  have ha2a : a2 = a := by
    rcases hevo with h | ⟨hnone, h⟩
    · exact h
    · rw [hset] at hnone
      cases hnone
  rw [ha2a] at ha2
  refine ⟨ha2, fun hmem => ?_⟩
  unfold newlyUnlockedKeys at hmem
  rw [List.mem_filterMap] at hmem
  obtain ⟨p, hp, hfp⟩ := hmem
  by_cases hc : p.1.unlocked_at = none ∧ p.2.unlocked_at.isSome
  · rw [if_pos hc] at hfp
    have hk2 : p.2.key = a.key := Option.some.inj hfp
    rw [List.mem_iff_getElem?] at hp
    obtain ⟨j, hj⟩ := hp
    obtain ⟨hpre, hpost⟩ := List.getElem?_zip_eq_some.mp hj
    obtain ⟨c2, hc2, hevo2⟩ := hev j p.1 hpre
    have hcc : c2 = p.2 := by
      rw [hc2] at hpost
      exact Option.some.inj hpost
    have hkey : p.1.key = a.key := by
      rw [← hk2, ← hcc]
      exact (achEvolves_key ts p.1 c2 hevo2).symm
    exact hkeys j p.1 hpre hkey hc.1
  · rw [if_neg hc] at hfp
    cases hfp

/-- An already-unlocked achievement row. -/
def achW : Achievement :=
  { id := 1, key := "first_exercise", name := "First Steps",
    description := some "Complete your first exercise", icon := none,
    unlocked_at := some "2024-01-01 00:00:00" }

/-- A database holding one already-unlocked achievement. -/
def dbW9 : DbState :=
  { exercises := [exW], logs := [],
    stats := { current_streak := 0, longest_streak := 0, last_exercise_date := none },
    achievements := [achW], settings := [], nextExerciseId := 2, nextLogId := 1 }

/-- Witness for C9 on a concrete already-unlocked achievement. -/
theorem unlock_set_once_witness :
    (log_exercise none 5 "ts" 1 2 dbW9).2.achievements[0]? = some achW ∧
      achW.key ∉ newlyUnlockedKeys dbW9 (log_exercise none 5 "ts" 1 2 dbW9).2 :=
  unlock_set_once none 5 "ts" 1 2 dbW9 0 achW "2024-01-01 00:00:00" rfl rfl (by
    intro j b hb hk
    cases j with
    | zero =>
      simp only [dbW9, List.getElem?_cons_zero, Option.some.injEq] at hb
      rw [← hb]
      simp [achW]
    | succ n =>
      simp [dbW9] at hb)

/-- C1 as stated is false: `log_exercise` never validates `reps`.  With the
resolvable exercise id 1 and reps = 0 the call does not fail with
InvalidInput; it succeeds and appends a log entry (state is mutated before
any validation could reject the input). -/
theorem reps_validation_counterexample :
    (log_exercise none 7 "ts" 1 0 dbW1).1 =
      Except.ok { xp_earned := 0, new_exercise_level := 1, leveled_up := false } ∧
    (log_exercise none 7 "ts" 1 0 dbW1).2.logs =
      [{ id := 1, exercise_id := 1, reps := 0, xp_earned := 0, logged_at := 7 }] := by
  have h0 : level_from_xp (exW.total_xp + exW.xp_per_rep * 0) = 1 :=
    level_from_xp_eq_one _ (by norm_num [exW])
  constructor
  · rw [log_exercise_none_fst 7 "ts" 1 0 dbW1 exW rfl, h0]
    simp [exW]
  · rw [log_exercise_none_logs 7 "ts" 1 0 dbW1 exW rfl]
    simp [dbW1, exW]

/-- C1 (amended): `log_exercise` validates only the exercise reference, not
reps.  An unresolvable reference fails before any mutation; with a
resolvable reference and reps ≤ 0 the call nevertheless succeeds, appending
a log entry with xpEarned = xpPerRep·reps and mutating state exactly as for
positive reps. -/
theorem reps_validation_amended (today : Int) (ts : String) (eid reps : Int)
    (db : DbState) :
    (queryExercise db.exercises eid = none →
      log_exercise none today ts eid reps db =
        (Except.error "Query returned no rows", db)) ∧
    (∀ ex : Exercise, queryExercise db.exercises eid = some ex → reps ≤ 0 →
      (log_exercise none today ts eid reps db).1 =
        Except.ok { xp_earned := ex.xp_per_rep * reps,
                    new_exercise_level :=
                      level_from_xp (ex.total_xp + ex.xp_per_rep * reps),
                    leveled_up :=
                      decide (level_from_xp (ex.total_xp + ex.xp_per_rep * reps) >
                        ex.current_level) } ∧
      (log_exercise none today ts eid reps db).2.logs =
        db.logs ++ [{ id := db.nextLogId, exercise_id := eid, reps := reps,
                      xp_earned := ex.xp_per_rep * reps, logged_at := today }]) :=
  ⟨fun h => log_exercise_notfound none today ts eid reps db h,
   fun ex hq _ => ⟨log_exercise_none_fst today ts eid reps db ex hq,
                   log_exercise_none_logs today ts eid reps db ex hq⟩⟩

/-- Witness for the amended C1 at reps = 0. -/
theorem reps_validation_amended_witness :
    (log_exercise none 7 "ts" 1 0 dbW1).1 =
      Except.ok { xp_earned := exW.xp_per_rep * 0,
                  new_exercise_level := level_from_xp (exW.total_xp + exW.xp_per_rep * 0),
                  leveled_up :=
                    decide (level_from_xp (exW.total_xp + exW.xp_per_rep * 0) >
                      exW.current_level) } ∧
    (log_exercise none 7 "ts" 1 0 dbW1).2.logs =
      dbW1.logs ++ [{ id := dbW1.nextLogId, exercise_id := 1, reps := 0,
                      xp_earned := exW.xp_per_rep * 0, logged_at := 7 }] :=
  (reps_validation_amended 7 "ts" 1 0 dbW1).2 exW rfl (by norm_num)

/-- C2 as stated is false: a durable-write failure mid-call does not leave
the state unchanged.  With the exercise-UPDATE write made to fail, the call
errors yet the log entry committed by the preceding statement survives: the
state after the failed call differs from the state before. -/
theorem atomicity_counterexample :
    (log_exercise (some 1) 7 "ts" 1 5 dbW1).1 = Except.error "update exercises failed" ∧
      (log_exercise (some 1) 7 "ts" 1 5 dbW1).2 ≠ dbW1 := by
  rw [log_exercise_fail1 7 "ts" 1 5 dbW1 exW rfl]
  exact ⟨rfl, by decide⟩

/-- C2 (amended): the statements of `log_exercise` commit individually (the
source opens no SQL transaction).  If the durable write fails at the
exercise UPDATE, the call reports the failure but the log entry inserted by
the preceding statement remains visible, while the exercise table, streak
row and achievements keep their prior values: the transaction is torn, not
rolled back. -/
theorem atomicity_amended (today : Int) (ts : String) (eid reps : Int) (db : DbState)
    (ex : Exercise) (hq : queryExercise db.exercises eid = some ex) :
    (log_exercise (some 1) today ts eid reps db).1 =
      Except.error "update exercises failed" ∧
    (log_exercise (some 1) today ts eid reps db).2.logs =
      db.logs ++ [{ id := db.nextLogId, exercise_id := eid, reps := reps,
                    xp_earned := ex.xp_per_rep * reps, logged_at := today }] ∧
    (log_exercise (some 1) today ts eid reps db).2.exercises = db.exercises ∧
    (log_exercise (some 1) today ts eid reps db).2.stats = db.stats ∧
    (log_exercise (some 1) today ts eid reps db).2.achievements = db.achievements := by
  rw [log_exercise_fail1 today ts eid reps db ex hq]
  exact ⟨rfl, rfl, rfl, rfl, rfl⟩

/-- Witness for the amended C2 at a concrete state. -/
theorem atomicity_amended_witness :
    (log_exercise (some 1) 7 "ts" 1 5 dbW1).1 =
      Except.error "update exercises failed" ∧
    (log_exercise (some 1) 7 "ts" 1 5 dbW1).2.logs =
      dbW1.logs ++ [{ id := dbW1.nextLogId, exercise_id := 1, reps := 5,
                      xp_earned := exW.xp_per_rep * 5, logged_at := 7 }] ∧
    (log_exercise (some 1) 7 "ts" 1 5 dbW1).2.exercises = dbW1.exercises ∧
    (log_exercise (some 1) 7 "ts" 1 5 dbW1).2.stats = dbW1.stats ∧
    (log_exercise (some 1) 7 "ts" 1 5 dbW1).2.achievements = dbW1.achievements :=
  atomicity_amended 7 "ts" 1 5 dbW1 exW rfl

/-- C4 (amended): every successful `log_exercise` call returns a summary of
exactly three fields - xpEarned = xpPerRep·reps, newLevel, and leveledUp
true exactly when newLevel exceeds the old level.  No list of newly
unlocked achievements is part of the result: `LogExerciseResult` has no
such field, and unlocks are recorded only in the achievements table. -/
theorem result_summary (today : Int) (ts : String) (eid reps : Int) (db : DbState)
    (ex : Exercise) (hq : queryExercise db.exercises eid = some ex) :
    ∃ r : LogExerciseResult, (log_exercise none today ts eid reps db).1 = Except.ok r ∧
      r.xp_earned = ex.xp_per_rep * reps ∧
      r.new_exercise_level = level_from_xp (ex.total_xp + ex.xp_per_rep * reps) ∧
      (r.leveled_up = true ↔ r.new_exercise_level > ex.current_level) := by
  refine ⟨_, log_exercise_none_fst today ts eid reps db ex hq, rfl, rfl, ?_⟩
  simp

/-- Witness for the amended C4. -/
theorem result_summary_witness :
    ∃ r : LogExerciseResult, (log_exercise none 7 "ts" 1 2 dbW1).1 = Except.ok r ∧
      r.xp_earned = exW.xp_per_rep * 2 ∧
      r.new_exercise_level = level_from_xp (exW.total_xp + exW.xp_per_rep * 2) ∧
      (r.leveled_up = true ↔ r.new_exercise_level > exW.current_level) :=
  result_summary 7 "ts" 1 2 dbW1 exW rfl

/-- A one-XP exercise for the distinguishability runs. -/
def exS : Exercise :=
  { id := 1, name := "Sit-ups", xp_per_rep := 1, total_xp := 0, current_level := 1,
    icon := none, created_at := "" }

/-- A locked achievement row. -/
def achN : Achievement :=
  { id := 1, key := "first_exercise", name := "First Steps", description := none,
    icon := none, unlocked_at := none }

/-- Run A: no prior logs - this call is the first log ever. -/
def dbA4 : DbState :=
  { exercises := [exS], logs := [],
    stats := { current_streak := 0, longest_streak := 0, last_exercise_date := none },
    achievements := [achN], settings := [], nextExerciseId := 2, nextLogId := 1 }

/-- Run B: one prior log - the identical call is the second log. -/
def dbB4 : DbState :=
  { exercises := [exS],
    logs := [{ id := 1, exercise_id := 1, reps := 1, xp_earned := 1, logged_at := 0 }],
    stats := { current_streak := 0, longest_streak := 0, last_exercise_date := none },
    achievements := [achN], settings := [], nextExerciseId := 2, nextLogId := 2 }

/-- C4 as stated is false: the returned summary does not contain the list of
newly unlocked achievements.  Two runs that return the very same summary
value differ in what they newly unlock ("first_exercise" in run A, nothing
in run B), so no component of the result can carry that list. -/
theorem result_no_unlock_list_counterexample :
    (log_exercise none 0 "ts" 1 1 dbA4).1 = (log_exercise none 0 "ts" 1 1 dbB4).1 ∧
    newlyUnlockedKeys dbA4 (log_exercise none 0 "ts" 1 1 dbA4).2 = ["first_exercise"] ∧
    newlyUnlockedKeys dbB4 (log_exercise none 0 "ts" 1 1 dbB4).2 = [] := by
  have h1 : level_from_xp (exS.total_xp + exS.xp_per_rep * 1) = 1 :=
    level_from_xp_eq_one _ (by norm_num [exS])
  have hqA : queryExercise dbA4.exercises 1 = some exS := rfl
  have hqB : queryExercise dbB4.exercises 1 = some exS := rfl
  have hachA : (log_exercise none 0 "ts" 1 1 dbA4).2.achievements =
      [{ achN with unlocked_at := some "ts" }] := by
    simp only [log_exercise, hqA]
    rw [h1]
    decide
  have hachB : (log_exercise none 0 "ts" 1 1 dbB4).2.achievements = [achN] := by
    simp only [log_exercise, hqB]
    rw [h1]
    decide
  refine ⟨?_, ?_, ?_⟩
  · rw [log_exercise_none_fst 0 "ts" 1 1 dbA4 exS hqA,
        log_exercise_none_fst 0 "ts" 1 1 dbB4 exS hqB]
  · unfold newlyUnlockedKeys
    rw [hachA]
    decide
  · unfold newlyUnlockedKeys
    rw [hachB]
    decide

/-! ## Import / reset structural lemmas -/

theorem importExercises_stats (l : List Exercise) :
    ∀ d : DbState, (importExercises l d).2.stats = d.stats := by
  induction l with
  | nil => intro d; rfl
  | cons e rest ih =>
    intro d
    unfold importExercises
    split
    · rfl
    · rw [ih]

theorem importExercises_logs (l : List Exercise) :
    ∀ d : DbState, (importExercises l d).2.logs = d.logs := by
  induction l with
  | nil => intro d; rfl
  | cons e rest ih =>
    intro d
    unfold importExercises
    split
    · rfl
    · rw [ih]

theorem importLogs_stats (l : List ExerciseLog) :
    ∀ d : DbState, (importLogs l d).2.stats = d.stats := by
  induction l with
  | nil => intro d; rfl
  | cons e rest ih =>
    intro d
    unfold importLogs
    split
    · rfl
    · rw [ih]

/-- The streak row after a shape-valid import: cleared (when an insert
failed mid-import) or copied verbatim from the payload. -/
theorem import_stats_cases (data : ExportData) (db : DbState) :
    (import_data (some data) db).2.stats =
        { current_streak := 0, longest_streak := 0, last_exercise_date := none } ∨
    (import_data (some data) db).2.stats =
        { current_streak := data.user_stats.current_streak,
          longest_streak := data.user_stats.longest_streak,
          last_exercise_date := data.user_stats.last_exercise_date } := by
  simp only [import_data]
  split
  · rename_i e db2 heq
    left
    have h := congrArg (fun p => p.2.stats) heq
    simp only [importExercises_stats] at h
    exact h.symm
  · rename_i u db2 heq
    split
    · rename_i e db3 heq2
      left
      have hA := congrArg (fun p => p.2.stats) heq
      simp only [importExercises_stats] at hA
      have hB := congrArg (fun p => p.2.stats) heq2
      simp only [importLogs_stats] at hB
      exact (hA.trans hB).symm
    · right
      rfl

theorem seedFold_stats (l : List (String × Int × String)) :
    ∀ d : DbState, (l.foldl seedStep d).stats = d.stats := by
  induction l with
  | nil => intro d; rfl
  | cons hd tl ih =>
    intro d
    rw [List.foldl_cons, ih]
    rfl

theorem reset_stats (db : DbState) :
    (reset_all_data db).stats =
      { current_streak := 0, longest_streak := 0, last_exercise_date := none } := by
  unfold reset_all_data
  rw [seedFold_stats]

theorem importExercises_ok (l : List Exercise) :
    ∀ d : DbState,
      l.Pairwise (fun a b => a.id ≠ b.id ∧ a.name ≠ b.name) →
      (∀ x ∈ l, ∀ e2 ∈ d.exercises, e2.id ≠ x.id ∧ e2.name ≠ x.name) →
      (importExercises l d).1 = Except.ok () := by
  induction l with
  | nil => intro d _ _; rfl
  | cons e rest ih =>
    intro d hpw hdis
    unfold importExercises
    have hany : (d.exercises.any fun e2 => e2.id == e.id || e2.name == e.name) = false := by
      rw [List.any_eq_false]
      intro e2 he2
      have h := hdis e (List.mem_cons_self e rest) e2 he2
      simp [h.1, h.2]
    simp only [hany, Bool.false_eq_true, if_false]
    apply ih
    · exact (List.pairwise_cons.mp hpw).2
    · intro x hx e2 he2
      rcases List.mem_append.mp he2 with h2 | h2
      · exact hdis x (List.mem_cons_of_mem e hx) e2 h2
      · have he : e2 = e := by simpa using h2
        subst he
        exact (List.pairwise_cons.mp hpw).1 x hx

theorem importLogs_ok (l : List ExerciseLog) :
    ∀ d : DbState,
      l.Pairwise (fun a b => a.id ≠ b.id) →
      (∀ x ∈ l, ∀ l2 ∈ d.logs, l2.id ≠ x.id) →
      (importLogs l d).1 = Except.ok () := by
  induction l with
  | nil => intro d _ _; rfl
  | cons e rest ih =>
    intro d hpw hdis
    unfold importLogs
    have hany : (d.logs.any fun l2 => l2.id == e.id) = false := by
      rw [List.any_eq_false]
      intro l2 hl2
      have h := hdis e (List.mem_cons_self e rest) l2 hl2
      simp [h]
    simp only [hany, Bool.false_eq_true, if_false]
    apply ih
    · exact (List.pairwise_cons.mp hpw).2
    · intro x hx l2 hl2
      rcases List.mem_append.mp hl2 with h2 | h2
      · exact hdis x (List.mem_cons_of_mem e hx) l2 h2
      · have he : l2 = e := by simpa using h2
        subst he
        exact (List.pairwise_cons.mp hpw).1 x hx

theorem importExercises_no_error (l : List Exercise) (d : DbState) (e : String)
    (d2 : DbState) (heq : importExercises l d = (Except.error e, d2))
    (hd : d.exercises = [])
    (hpw : l.Pairwise (fun a b => a.id ≠ b.id ∧ a.name ≠ b.name)) : False := by
  have hok := importExercises_ok l d hpw (by
    intro x hx e2 he2
    rw [hd] at he2
    exact absurd he2 (List.not_mem_nil e2))
  rw [heq] at hok
  exact absurd hok (by simp)

theorem importLogs_no_error (l : List ExerciseLog) (d : DbState) (e : String)
    (d2 : DbState) (heq : importLogs l d = (Except.error e, d2))
    (hd : d.logs = [])
    (hpw : l.Pairwise (fun a b => a.id ≠ b.id)) : False := by
  have hok := importLogs_ok l d hpw (by
    intro x hx l2 hl2
    rw [hd] at hl2
    exact absurd hl2 (List.not_mem_nil l2))
  rw [heq] at hok
  exact absurd hok (by simp)

/-- C6 (amended): `log_exercise` (under any fault schedule) and
`reset_all_data` preserve the invariant longestStreak ≥ currentStreak, and
`log_exercise` never decreases longestStreak; `import_data` preserves the
invariant for shape-invalid payloads (no mutation) and for payloads whose
own streak fields satisfy it, but it copies the payload's streak fields
without validation, so the invariant survives an import only when the
payload itself satisfies it. -/
theorem streak_invariant_amended :
    (∀ (failAt : Option Nat) (today : Int) (ts : String) (eid reps : Int) (db : DbState),
      db.stats.longest_streak ≥ db.stats.current_streak →
      (log_exercise failAt today ts eid reps db).2.stats.longest_streak ≥
          (log_exercise failAt today ts eid reps db).2.stats.current_streak ∧
        (log_exercise failAt today ts eid reps db).2.stats.longest_streak ≥
          db.stats.longest_streak) ∧
    (∀ db : DbState, (reset_all_data db).stats.longest_streak ≥
        (reset_all_data db).stats.current_streak) ∧
    (∀ db : DbState, (import_data none db).2 = db) ∧
    (∀ (data : ExportData) (db : DbState),
      data.user_stats.longest_streak ≥ data.user_stats.current_streak →
      (import_data (some data) db).2.stats.longest_streak ≥
        (import_data (some data) db).2.stats.current_streak) := by
  refine ⟨?_, ?_, ?_, ?_⟩
  · intro failAt today ts eid reps db hinv
    rcases log_exercise_stats_cases failAt today ts eid reps db with h | h <;> rw [h]
    · exact ⟨hinv, le_refl _⟩
    · exact ⟨le_max_left _ _, le_max_right _ _⟩
  · intro db
    rw [reset_stats db]
  · intro db
    rfl
  · intro data db h
    rcases import_stats_cases data db with hs | hs
    · rw [hs]
    · rw [hs]
      exact h

/-- Witness for the amended C6 at a concrete state. -/
theorem streak_invariant_amended_witness :
    dbW1.stats.longest_streak ≥ dbW1.stats.current_streak ∧
    ((log_exercise none 7 "ts" 1 5 dbW1).2.stats.longest_streak ≥
        (log_exercise none 7 "ts" 1 5 dbW1).2.stats.current_streak ∧
      (log_exercise none 7 "ts" 1 5 dbW1).2.stats.longest_streak ≥
        dbW1.stats.longest_streak) :=
  ⟨by decide, streak_invariant_amended.1 none 7 "ts" 1 5 dbW1 (by decide)⟩

/-- A default settings payload. -/
def settingsW : Settings :=
  { reminder_enabled := true, reminder_interval_minutes := 120, sound_enabled := true,
    daily_goal_xp := 500, theme_mode := none }

/-- A payload whose streak fields violate longestStreak ≥ currentStreak. -/
def badStreakPayload : ExportData :=
  { version := "1.0.0", exported_at := "2024-01-01 00:00:00", exercises := [],
    exercise_logs := [],
    user_stats := { total_xp := 0, total_level := 0, current_streak := 5,
                    longest_streak := 3, last_exercise_date := none, exercise_count := 0 },
    achievements := [], settings := settingsW }

/-- C6 as stated is false for `import_data`: applied to a state satisfying
longestStreak ≥ currentStreak, an import whose payload carries
currentStreak = 5, longestStreak = 3 produces a state violating the
invariant (the payload streak fields are copied unvalidated). -/
theorem streak_invariant_counterexample :
    dbW1.stats.longest_streak ≥ dbW1.stats.current_streak ∧
    (import_data (some badStreakPayload) dbW1).2.stats.current_streak = 5 ∧
    (import_data (some badStreakPayload) dbW1).2.stats.longest_streak = 3 := by
  decide

/-- C3 (amended): `import_data` validates only the payload's shape before
touching live state - a payload rejected by parsing leaves the database
untouched - but it performs no referential-integrity validation: any
shape-valid payload whose rows merely satisfy the per-table UNIQUE
constraints is imported in full, even when its log entries reference
nonexistent exercise ids, and the live tables are cleared before the
payload rows are inserted. -/
theorem import_validation_amended :
    (∀ db : DbState, import_data none db = (Except.error "Invalid data format", db)) ∧
    (∀ (data : ExportData) (db : DbState),
      data.exercises.Pairwise (fun a b => a.id ≠ b.id ∧ a.name ≠ b.name) →
      data.exercise_logs.Pairwise (fun a b => a.id ≠ b.id) →
      (import_data (some data) db).1 = Except.ok ()) := by
  refine ⟨fun db => rfl, fun data db hpe hpl => ?_⟩
  simp only [import_data]
  split
  · rename_i e db2 heq
    exact (importExercises_no_error data.exercises _ e db2 heq rfl hpe).elim
  · rename_i u db2 heq
    split
    · rename_i e db3 heq2
      have h2 := congrArg (fun p => p.2.logs) heq
      simp only [importExercises_logs] at h2
      exact (importLogs_no_error data.exercise_logs db2 e db3 heq2 h2.symm hpl).elim
    · rfl

/-- A shape-valid payload whose only log entry references exercise id 42,
which does not exist in the payload's (empty) exercise list. -/
def danglingPayload : ExportData :=
  { version := "1.0.0", exported_at := "2024-01-01 00:00:00", exercises := [],
    exercise_logs := [{ id := 1, exercise_id := 42, reps := 5, xp_earned := 50,
                        logged_at := 0 }],
    user_stats := { total_xp := 0, total_level := 0, current_streak := 0,
                    longest_streak := 0, last_exercise_date := none, exercise_count := 0 },
    achievements := [], settings := settingsW }

/-- Witness for the amended C3: the shape-invalid payload is rejected with
the state intact, and the dangling payload is accepted. -/
theorem import_validation_amended_witness :
    import_data none dbW1 = (Except.error "Invalid data format", dbW1) ∧
    (import_data (some danglingPayload) dbW1).1 = Except.ok () :=
  ⟨import_validation_amended.1 dbW1,
   import_validation_amended.2 danglingPayload dbW1 (by simp [danglingPayload])
     (by simp [danglingPayload])⟩

/-- C3 as stated is false: a payload violating referential integrity (a log
entry pointing at exercise id 42, which exists nowhere) is not rejected;
the import succeeds, the live state is replaced, and the dangling log entry
is now live. -/
theorem import_validation_counterexample :
    (import_data (some danglingPayload) dbW1).1 = Except.ok () ∧
    (import_data (some danglingPayload) dbW1).2.logs =
      [{ id := 1, exercise_id := 42, reps := 5, xp_earned := 50, logged_at := 0 }] ∧
    (import_data (some danglingPayload) dbW1).2.exercises = [] ∧
    dbW1.exercises ≠ [] := by
  refine ⟨rfl, by decide, by decide, by decide⟩

end Geekfit
